import Mathlib

/-!
Shallow embedding of the Generation Client of `src/services/AIService.ts`
(the `AIService` class): error classification, retry driver, request
builders, response parser and streaming chunk parser, together with the
streaming read loop, modelled as pure Lean functions.  JSON values are an
explicit inductive; the platform primitive `JSON.parse` (which can throw)
is passed in as an oracle of type `String → Option Json` where `none`
models a thrown parse error; HTTP transport is passed in as an oracle as
well, so that network-call counts and retry behaviour are observable.
-/

namespace EvergreenAI

/-- JSON values as decoded by `JSON.parse`.  Numbers are modelled over
`Int`; no modelled code path performs arithmetic on decoded numbers. -/
inductive Json where
  | null : Json
  | bool (b : Bool) : Json
  | num (n : Int) : Json
  | str (s : String) : Json
  | arr (elems : List Json) : Json
  | obj (fields : List (String × Json)) : Json

/-- JS property access `j.k` for a decoded JSON value: a field lookup on
an object, `undefined` (here `none`) on everything else. -/
def Json.getField : Json → String → Option Json
  | .obj fields, k => fields.lookup k
  | _, _ => none

/-- JS truthiness of a decoded JSON value (`null`, `false`, `0` and the
empty string are falsy; objects and arrays are always truthy). -/
def jsTruthy : Json → Bool
  | .null => false
  | .bool b => b
  | .num n => n != 0
  | .str s => s != ""
  | .arr _ => true
  | .obj _ => true

/-- JS `String(...)` coercion of a decoded JSON value.  Exact on strings,
numbers, booleans and `null`; arrays and objects are approximated (no
modelled code path coerces them: every provider error message that the
classifier inspects is a string). -/
def jsToString : Json → String
  | .str s => s
  | .num n => toString n
  | .bool b => cond b "true" "false"
  | .null => "null"
  | .arr _ => ""
  | .obj _ => "[object Object]"

/-- `truthyField o` is `o` when it holds a JS-truthy value, else `none`;
models the guard `if (x) ...` on an optionally-present field. -/
def truthyField (o : Option Json) : Option Json :=
  match o with
  | some j => if jsTruthy j then some j else none
  | none => none

/-- ASCII lower-casing of one character (the only characters the modelled
code lower-cases are ASCII). -/
def charLower (c : Char) : Char :=
  if 65 ≤ c.toNat ∧ c.toNat ≤ 90 then Char.ofNat (c.toNat + 32) else c

/-- JS `s.toLowerCase()` (kernel-computable replacement for
`String.toLower`, which does not reduce in the kernel). -/
def strLower (s : String) : String :=
  ⟨s.data.map charLower⟩

/-- Substring occurrence on character lists (JS `String.includes`). -/
def subOccurs (pat : List Char) : List Char → Bool
  | [] => pat.isEmpty
  | c :: rest => pat.isPrefixOf (c :: rest) || subOccurs pat rest

/-- JS `s.includes(pat)`. -/
def strContains (s pat : String) : Bool :=
  subOccurs pat.toList s.toList

/-- Whitespace for JS `trim` (the characters that occur in the modelled
streams). -/
def isWsp (c : Char) : Bool :=
  c = ' ' ∨ c = '\t' ∨ c = '\n' ∨ c = '\r'

/-- JS `s.trim()` (kernel-computable). -/
def jsTrim (s : String) : String :=
  ⟨((s.data.dropWhile isWsp).reverse.dropWhile isWsp).reverse⟩

/-- JS `s.startsWith(pat)` (kernel-computable). -/
def strStarts (s pat : String) : Bool :=
  pat.data.isPrefixOf s.data

/-- JS `s.slice(n)` for ASCII content (kernel-computable). -/
def strDrop (s : String) (n : Nat) : String :=
  ⟨s.data.drop n⟩

/-- One split step: JS `s.split("\n")` on character lists. -/
def splitOnChar (sep : Char) : List Char → List (List Char)
  | [] => [[]]
  | c :: rest =>
    let r := splitOnChar sep rest
    if c = sep then [] :: r
    else
      match r with
      | [] => [[c]]
      | h :: t => (c :: h) :: t

/-- JS `s.split("\n")` (kernel-computable). -/
def jsSplitNl (s : String) : List String :=
  (splitOnChar '\n' s.data).map (fun l => ⟨l⟩)

/-- Digit run to a natural number (JS `parseInt` on a digit match). -/
def digitsToNat (l : List Char) : Nat :=
  l.foldl (fun acc c => acc * 10 + (c.toNat - 48)) 0

/-- Scan for the pattern followed by at least one digit, anywhere in the
list; returns the digit run's value (the regex `/try again in (\d+)/`). -/
def scanPatNat (pat : List Char) : List Char → Option Nat
  | [] => none
  | c :: rest =>
    if pat.isPrefixOf (c :: rest) then
      let ds := ((c :: rest).drop pat.length).takeWhile Char.isDigit
      if ds.isEmpty then scanPatNat pat rest else some (digitsToNat ds)
    else scanPatNat pat rest

/-- The regex match `message.match(/try again in (\d+)/i)` followed by
`parseInt` of the captured group, case-insensitive. -/
def findTryAgainIn (s : String) : Option Nat :=
  scanPatNat "try again in ".toList (strLower s).toList

/-- The `AIProvider` union type (`openai | anthropic | ollama | custom`). -/
inductive AIProvider where
  | openai : AIProvider
  | anthropic : AIProvider
  | ollama : AIProvider
  | custom : AIProvider
deriving DecidableEq

/-- The `AIErrorCode` enum of `AIService.ts`. -/
inductive AIErrorCode where
  | RATE_LIMIT : AIErrorCode
  | NETWORK_ERROR : AIErrorCode
  | TIMEOUT : AIErrorCode
  | INVALID_API_KEY : AIErrorCode
  | QUOTA_EXCEEDED : AIErrorCode
  | MODEL_NOT_FOUND : AIErrorCode
  | CONTEXT_LENGTH_EXCEEDED : AIErrorCode
  | SERVER_ERROR : AIErrorCode
  | UNKNOWN : AIErrorCode
deriving DecidableEq

/-- The `AIServiceError` class: message, code, retryable flag and the
optional `retryAfter` duration in seconds (`undefined` is `none`). -/
structure AIServiceError where
  message : String
  code : AIErrorCode
  retryable : Bool
  retryAfter : Option Nat
deriving DecidableEq

/-- The `RetryConfig` interface. -/
structure RetryConfig where
  maxRetries : Nat
  baseDelayMs : Nat
  maxDelayMs : Nat
deriving DecidableEq

/-- `DEFAULT_RETRY_CONFIG` of `AIService.ts`. -/
def DEFAULT_RETRY_CONFIG : RetryConfig :=
  { maxRetries := 3, baseDelayMs := 1000, maxDelayMs := 30000 }

/-- The message-extraction prefix of `parseErrorResponse`: the first
JS-truthy value among `body.error.message`, `body.message` and
`body.detail`, coerced to a string, else the fixed default. -/
def extractMessage (body : Json) : String :=
  match truthyField ((body.getField "error").bind (fun e => e.getField "message")) with
  | some j => jsToString j
  | none =>
    match truthyField (body.getField "message") with
    | some j => jsToString j
    | none =>
      match truthyField (body.getField "detail") with
      | some j => jsToString j
      | none => "API request failed"

/-- `AIService.parseErrorResponse`: maps an HTTP status and decoded error
body to a classified `AIServiceError`, translated branch by branch from
the `switch (status)` in the source. -/
def parseErrorResponse (status : Nat) (body : Json) : AIServiceError :=
  let message := extractMessage body
  if status = 400 then
    if strContains (strLower message) "context" || strContains (strLower message) "token" ||
        strContains (strLower message) "length" then
      { message := "Content too long - try with shorter text or break it into smaller parts",
        code := AIErrorCode.CONTEXT_LENGTH_EXCEEDED, retryable := false, retryAfter := none }
    else
      { message := message, code := AIErrorCode.UNKNOWN, retryable := false, retryAfter := none }
  else if status = 401 then
    { message := "Invalid API key - please check your API key in settings",
      code := AIErrorCode.INVALID_API_KEY, retryable := false, retryAfter := none }
  else if status = 403 then
    { message := "Access denied - your API key may not have the required permissions",
      code := AIErrorCode.INVALID_API_KEY, retryable := false, retryAfter := none }
  else if status = 404 then
    { message := "Model not found - please check the model name in settings",
      code := AIErrorCode.MODEL_NOT_FOUND, retryable := false, retryAfter := none }
  else if status = 429 then
    if strContains (strLower message) "quota" || strContains (strLower message) "billing" ||
        strContains (strLower message) "limit exceeded" then
      { message := "API quota exceeded - please check your billing/usage limits",
        code := AIErrorCode.QUOTA_EXCEEDED, retryable := false, retryAfter := none }
    else
      -- Source order kept faithfully: `message` is reassigned to the fixed
      -- string BEFORE the `try again in (\d+)` scan runs on it.
      let message := "Rate limit reached - waiting and retrying..."
      let retryAfter :=
        match findTryAgainIn message with
        | some n => some n
        | none => some 60
      { message := message, code := AIErrorCode.RATE_LIMIT, retryable := true,
        retryAfter := retryAfter }
  else if status = 500 ∨ status = 502 ∨ status = 503 ∨ status = 504 then
    { message := "Server error (" ++ toString status ++
        ") - the AI service may be experiencing issues. Retrying...",
      code := AIErrorCode.SERVER_ERROR, retryable := true, retryAfter := some 5 }
  else if 500 ≤ status then
    { message := message, code := AIErrorCode.SERVER_ERROR, retryable := true, retryAfter := none }
  else
    { message := message, code := AIErrorCode.UNKNOWN, retryable := false, retryAfter := none }


/-- Modelled from the spec: `EvergreenAISettings` lives in `src/types.ts`,
which is not under `src/`.  The spec's ProviderConfig lists the provider
identifier, model name, API key (optional, the empty string when not
configured), endpoint override, temperature and max-output-tokens.  The
temperature is an opaque numeric sampling parameter (only ever copied into
request bodies), modelled over `Int`. -/
structure EvergreenAISettings where
  aiProvider : AIProvider
  apiKey : String
  apiEndpoint : String
  model : String
  temperature : Int
  maxTokens : Nat
deriving DecidableEq

/-- Modelled from the spec: `PROVIDER_DEFAULTS.openai.endpoint` from
`src/types.ts` (an OpenAI chat-completion endpoint). -/
def PROVIDER_DEFAULTS_openai_endpoint : String :=
  "https://api.openai.com/v1/chat/completions"

/-- Modelled from the spec: `PROVIDER_DEFAULTS.anthropic.endpoint` from
`src/types.ts` (an Anthropic messages endpoint). -/
def PROVIDER_DEFAULTS_anthropic_endpoint : String :=
  "https://api.anthropic.com/v1/messages"

/-- Modelled from the spec: `PROVIDER_DEFAULTS.ollama.endpoint` from
`src/types.ts` (a localhost default for the local server). -/
def PROVIDER_DEFAULTS_ollama_endpoint : String :=
  "http://localhost:11434/api/chat"

/-- One chat message of a request body. -/
structure Message where
  role : String
  content : String
deriving DecidableEq

/-- The `options` sub-object of the local-server (Ollama) request body. -/
structure OllamaOptions where
  temperature : Int
  num_predict : Nat
deriving DecidableEq

/-- The union of the four request-body object literals of the builders;
each builder sets exactly the fields present in its source literal and
leaves the others `none`. -/
structure RequestBody where
  model : String
  messages : List Message
  system : Option String := none
  max_tokens : Option Nat := none
  temperature : Option Int := none
  options : Option OllamaOptions := none
  stream : Bool
deriving DecidableEq

/-- The `{ endpoint, headers, body }` triple a builder returns; headers in
source order. -/
structure BuiltRequest where
  endpoint : String
  headers : List (String × String)
  body : RequestBody
deriving DecidableEq

/-- `AIService.buildOpenAIRequest`. -/
def buildOpenAIRequest (s : EvergreenAISettings) (prompt systemPrompt : String)
    (stream : Bool) : BuiltRequest :=
  { endpoint := PROVIDER_DEFAULTS_openai_endpoint
    headers := [("Content-Type", "application/json"),
                ("Authorization", "Bearer " ++ s.apiKey)]
    body := { model := s.model
              messages := [{ role := "system", content := systemPrompt },
                           { role := "user", content := prompt }]
              max_tokens := some s.maxTokens
              temperature := some s.temperature
              stream := stream } }

/-- `AIService.buildAnthropicRequest`. -/
def buildAnthropicRequest (s : EvergreenAISettings) (prompt systemPrompt : String)
    (stream : Bool) : BuiltRequest :=
  { endpoint := PROVIDER_DEFAULTS_anthropic_endpoint
    headers := [("Content-Type", "application/json"),
                ("x-api-key", s.apiKey),
                ("anthropic-version", "2023-06-01")]
    body := { model := s.model
              system := some systemPrompt
              messages := [{ role := "user", content := prompt }]
              max_tokens := some s.maxTokens
              temperature := some s.temperature
              stream := stream } }

/-- `AIService.buildOllamaRequest`; `apiEndpoint || default` is the JS
falsy check on the empty string. -/
def buildOllamaRequest (s : EvergreenAISettings) (prompt systemPrompt : String)
    (stream : Bool) : BuiltRequest :=
  { endpoint := if s.apiEndpoint = "" then PROVIDER_DEFAULTS_ollama_endpoint else s.apiEndpoint
    headers := [("Content-Type", "application/json")]
    body := { model := s.model
              messages := [{ role := "system", content := systemPrompt },
                           { role := "user", content := prompt }]
              stream := stream
              options := some { temperature := s.temperature, num_predict := s.maxTokens } } }

/-- `AIService.buildCustomRequest`; the credential header is spread in
only when `apiKey` is truthy (non-empty). -/
def buildCustomRequest (s : EvergreenAISettings) (prompt systemPrompt : String)
    (stream : Bool) : BuiltRequest :=
  { endpoint := s.apiEndpoint
    headers := ("Content-Type", "application/json") ::
      (if s.apiKey = "" then [] else [("Authorization", "Bearer " ++ s.apiKey)])
    body := { model := s.model
              messages := [{ role := "system", content := systemPrompt },
                           { role := "user", content := prompt }]
              max_tokens := some s.maxTokens
              temperature := some s.temperature
              stream := stream } }

/-- `AIService.buildRequest`: dispatch on the provider read from the
settings at the moment the builder runs.  The source's `default` branch
(unknown provider) is unreachable: `AIProvider` is a closed union. -/
def buildRequest (s : EvergreenAISettings) (prompt systemPrompt : String)
    (stream : Bool) : BuiltRequest :=
  match s.aiProvider with
  | .openai => buildOpenAIRequest s prompt systemPrompt stream
  | .anthropic => buildAnthropicRequest s prompt systemPrompt stream
  | .ollama => buildOllamaRequest s prompt systemPrompt stream
  | .custom => buildCustomRequest s prompt systemPrompt stream

/-- Token-usage counts of a normalized response; a field the provider did
not report (or reported as a non-number) is `none`. -/
structure Usage where
  promptTokens : Option Int
  completionTokens : Option Int
deriving DecidableEq

/-- The `AIResponse` shape: generated text, model name (absent when the
provider body carries none) and optional usage counts. -/
structure AIResponse where
  content : String
  model : Option String
  usage : Option Usage
deriving DecidableEq

/-- `x?.y || ''` where a string is kept and everything else degrades to
the empty string (truthy non-string field values, which JS would pass
through, do not occur in any provider's documented response shape). -/
def strOrEmpty : Option Json → String
  | some (.str s) => s
  | _ => ""

/-- A numeric JSON field, `none` when absent or non-numeric. -/
def optInt : Option Json → Option Int
  | some (.num n) => some n
  | _ => none

/-- A string JSON field, `none` when absent or non-string (an `undefined`
model name in the source). -/
def optStr : Option Json → Option String
  | some (.str s) => some s
  | _ => none

/-- `AIService.parseResponse`: provider-specific extraction from the
decoded JSON body.  The provider is read from `this.settings` AT PARSE
TIME (source line 531), which is why the settings value at that moment is
a parameter. -/
def parseResponse (s : EvergreenAISettings) (json : Json) : AIResponse :=
  match s.aiProvider with
  | .anthropic =>
    { content :=
        match json.getField "content" with
        | some (.arr (c :: _)) => strOrEmpty (c.getField "text")
        | _ => ""
      model := optStr (json.getField "model")
      usage :=
        match truthyField (json.getField "usage") with
        | some u => some { promptTokens := optInt (u.getField "input_tokens")
                           completionTokens := optInt (u.getField "output_tokens") }
        | none => none }
  | .ollama =>
    { content := strOrEmpty ((json.getField "message").bind (fun m => m.getField "content"))
      model := optStr (json.getField "model")
      usage := none }
  | .openai | .custom =>
    { content :=
        match json.getField "choices" with
        | some (.arr (c :: _)) =>
          strOrEmpty ((c.getField "message").bind (fun m => m.getField "content"))
        | _ => ""
      model := optStr (json.getField "model")
      usage :=
        match truthyField (json.getField "usage") with
        | some u => some { promptTokens := optInt (u.getField "prompt_tokens")
                           completionTokens := optInt (u.getField "completion_tokens") }
        | none => none }

/-- The `AIStreamChunk` shape: one fragment of text plus the terminal
flag. -/
structure AIStreamChunk where
  content : String
  done : Bool
deriving DecidableEq

/-- The provider-specific part of `AIService.parseStreamChunk`, applied to
the decoded JSON of one data line.  JS property accesses that would throw
a `TypeError` (access on `null`) are mapped to `none`: the source wraps
the whole extraction in the try/catch whose catch returns `null`. -/
def parseStreamChunkData (provider : AIProvider) (data : Json) : Option AIStreamChunk :=
  match provider with
  | .anthropic =>
    match data.getField "type" with
    | some (.str t) =>
      if t = "content_block_delta" then
        some { content := strOrEmpty ((data.getField "delta").bind (fun d => d.getField "text"))
               done := false }
      else if t = "message_stop" then
        some { content := "", done := true }
      else none
    | _ => none
  | .ollama =>
    -- `data.message` on a decoded `null` throws (caught, null); on any
    -- other non-object it is `undefined` and the chunk degrades.
    match data with
    | .null => none
    | _ =>
      some { content := strOrEmpty ((data.getField "message").bind (fun m => m.getField "content"))
             done := match data.getField "done" with
                     | some j => jsTruthy j
                     | none => false }
  | .openai | .custom =>
    match data.getField "choices" with
    | some (.arr (c :: _)) =>
      match c with
      | .null => none  -- `choices[0].finish_reason` throws (caught, null)
      | _ =>
        match c.getField "finish_reason" with
        | some (.str r) =>
          if r = "stop" then some { content := "", done := true }
          else some { content := strOrEmpty ((c.getField "delta").bind
                        (fun d => d.getField "content"))
                      done := false }
        | _ =>
          some { content := strOrEmpty ((c.getField "delta").bind
                   (fun d => d.getField "content"))
                 done := false }
    | some (.str cs) =>
      -- JS string indexing: a non-empty string passes `choices.length === 0`
      -- and `choices[0]` is its first character, yielding an empty fragment.
      if cs = "" then none else some { content := "", done := false }
    | _ => none

/-- `AIService.parseStreamChunk`: one raw line of the chunked stream.
`jp` is the platform `JSON.parse`, with `none` for a thrown parse error
(the catch in the source returns `null`). -/
def parseStreamChunk (jp : String → Option Json) (provider : AIProvider)
    (line : String) : Option AIStreamChunk :=
  let trimmed := jsTrim line
  if trimmed = "" then none
  else if trimmed = "data: [DONE]" then some { content := "", done := true }
  else
    let payload : Option String :=
      if strStarts trimmed "data: " then some (strDrop trimmed 6)
      else if strStarts trimmed "\x7b" then some trimmed
      else none
    match payload with
    | none => none
    | some p =>
      match jp p with
      | none => none
      | some data => parseStreamChunkData provider data

/-- One observable callback invocation of a streaming call: `onChunk`
with a fragment of text, or `onComplete`. -/
inductive StreamEvent where
  | fragment (text : String) : StreamEvent
  | complete : StreamEvent
deriving DecidableEq

/-- The number of completion-callback invocations in an event trace. -/
def countComplete : List StreamEvent → Nat
  | [] => 0
  | .complete :: es => countComplete es + 1
  | .fragment _ :: es => countComplete es

/-- The inner `for (const line of lines)` loop of `generateStream`:
events emitted for the complete lines of one read, and whether a terminal
chunk fired `onComplete` and returned from the whole call (so later lines
of the same read are never processed). -/
def processLines (pc : String → Option AIStreamChunk) :
    List String → List StreamEvent × Bool
  | [] => ([], false)
  | l :: ls =>
    match pc l with
    | some c =>
      if c.done then ([StreamEvent.complete], true)
      else
        ((if c.content ≠ "" then [StreamEvent.fragment c.content] else []) ++
           (processLines pc ls).1,
         (processLines pc ls).2)
    | none => processLines pc ls

/-- The flush of the trailing partial line after the reader reports done
(`if (buffer) { const chunk = ...; if (chunk?.content) onChunk(...) }`). -/
def processFlush (pc : String → Option AIStreamChunk) (buffer : String) : List StreamEvent :=
  if buffer ≠ "" then
    match pc buffer with
    | some c => if c.content ≠ "" then [StreamEvent.fragment c.content] else []
    | none => []
  else []

/-- The `while (true)` read loop of `generateStream`, over the list of
decoded reads: append the read to the buffer, split on newlines, keep the
trailing partial line as the new buffer, process the complete lines, and
stop the whole call when a terminal chunk is seen; after the last read,
flush the buffer and invoke `onComplete`. -/
def processReads (pc : String → Option AIStreamChunk) :
    List String → String → List StreamEvent
  | [], buffer => processFlush pc buffer ++ [StreamEvent.complete]
  | r :: rs, buffer =>
    if (processLines pc ((jsSplitNl (buffer ++ r)).dropLast)).2 then
      (processLines pc ((jsSplitNl (buffer ++ r)).dropLast)).1
    else
      (processLines pc ((jsSplitNl (buffer ++ r)).dropLast)).1 ++
        processReads pc rs (((jsSplitNl (buffer ++ r)).getLast?).getD "")

/-- A failure escaping one attempt of an operation run under
`executeWithRetry`: an `AIServiceError` (`error instanceof AIServiceError`)
or any other thrown value. -/
inductive CallErr where
  | classified (e : AIServiceError) : CallErr
  | other (msg : String) : CallErr
deriving DecidableEq

instance {ε α : Type} [DecidableEq ε] [DecidableEq α] : DecidableEq (Except ε α) :=
  fun x y =>
    match x, y with
    | .ok a, .ok b =>
      if h : a = b then isTrue (by rw [h]) else isFalse (fun hh => h (Except.ok.inj hh))
    | .error e, .error f =>
      if h : e = f then isTrue (by rw [h]) else isFalse (fun hh => h (Except.error.inj hh))
    | .ok _, .error _ => isFalse (fun hh => Except.noConfusion hh)
    | .error _, .ok _ => isFalse (fun hh => Except.noConfusion hh)

/-- The delay computation of `executeWithRetry` (source lines 270-278):
exponential backoff `baseDelayMs * 2^attempt`, overridden by
`error.retryAfter * 1000` when `error.retryAfter` is truthy (so a zero
value does NOT override), then capped at `maxDelayMs`. -/
def computeRetryDelay (cfg : RetryConfig) (attempt : Nat) (retryAfter : Option Nat) : Nat :=
  let backoff := cfg.baseDelayMs * 2 ^ attempt
  let d := match retryAfter with
           | some r => if r ≠ 0 then r * 1000 else backoff
           | none => backoff
  min d cfg.maxDelayMs

/-- The `for (attempt = 0; attempt <= maxRetries; ...)` loop of
`executeWithRetry`, with `fuel = maxRetries - attempt` retries still
allowed.  `op i` is the outcome of the `i`-th invocation of the wrapped
operation.  Returns the delivered result, the number of invocations of
the operation, and the list of delays slept between attempts. -/
def runRetryAux {α : Type} (cfg : RetryConfig) (op : Nat → Except CallErr α) :
    Nat → Nat → Except CallErr α × Nat × List Nat
  | i, fuel =>
    match op i with
    | Except.ok a => (Except.ok a, 1, [])
    | Except.error (CallErr.other m) => (Except.error (CallErr.other m), 1, [])
    | Except.error (CallErr.classified err) =>
      if err.retryable then
        match fuel with
        | 0 => (Except.error (CallErr.classified err), 1, [])
        | fuel' + 1 =>
          ((runRetryAux cfg op (i + 1) fuel').1,
           (runRetryAux cfg op (i + 1) fuel').2.1 + 1,
           computeRetryDelay cfg i err.retryAfter :: (runRetryAux cfg op (i + 1) fuel').2.2)
      else (Except.error (CallErr.classified err), 1, [])

/-- `AIService.executeWithRetry`. -/
def executeWithRetry {α : Type} (cfg : RetryConfig) (op : Nat → Except CallErr α) :
    Except CallErr α × Nat × List Nat :=
  runRetryAux cfg op 0 cfg.maxRetries

/-- The observable outcome of one HTTP exchange (`requestUrl` / `fetch`),
as an oracle: a resolved response with status and decoded JSON body, a
thrown error matching the network-failure signatures of
`isNetworkError`, or any other thrown error with its message. -/
inductive NetOutcome where
  | status (code : Nat) (body : Json) : NetOutcome
  | netErr (msg : String) : NetOutcome
  | thrown (msg : String) : NetOutcome

/-- The fixed network-error classification created in the catch blocks. -/
def networkError : AIServiceError :=
  { message := "Network error - please check your internet connection"
    code := AIErrorCode.NETWORK_ERROR, retryable := true, retryAfter := none }

/-- The classified error thrown for the local-server provider on a
restricted (mobile) platform, in both entry points. -/
def mobileOllamaError : AIServiceError :=
  { message := "Ollama (local AI) is not supported on mobile devices. Please use OpenAI, Anthropic, or a cloud-based custom endpoint."
    code := AIErrorCode.UNKNOWN, retryable := false, retryAfter := none }

/-- The body of the async closure `generate` passes to `executeWithRetry`
(source lines 81-126): build the request from the settings current when
the attempt runs (`sReq`), perform one HTTP POST, classify a status ≥ 400
through `parseErrorResponse`, and on success parse the body with the
settings current AT PARSE TIME (`sParse`) — the source re-reads
`this.settings` inside `parseResponse`, so a mid-call `updateSettings`
makes `sParse` differ from `sReq`.  Thrown network-signature errors are
classified `NETWORK_ERROR` retryable; other unknown errors are wrapped
non-retryable `UNKNOWN`. -/
def generateAttempt (sReq sParse : EvergreenAISettings) (prompt systemPrompt : String)
    (net : BuiltRequest → NetOutcome) : Except CallErr AIResponse :=
  match net (buildRequest sReq prompt systemPrompt false) with
  | .status code json =>
    if 400 ≤ code then Except.error (CallErr.classified (parseErrorResponse code json))
    else Except.ok (parseResponse sParse json)
  | .netErr _ => Except.error (CallErr.classified networkError)
  | .thrown m =>
    Except.error (CallErr.classified
      { message := m, code := AIErrorCode.UNKNOWN, retryable := false, retryAfter := none })

/-- `AIService.generate` without a mid-call settings swap: the mobile
local-server guard, then the retried operation.  `net i` is the transport
oracle for the `i`-th attempt; the returned `Nat` counts operation
invocations, each of which performs exactly one network request. -/
def generateRun (cfg : RetryConfig) (isMobile : Bool) (s : EvergreenAISettings)
    (prompt systemPrompt : String) (net : Nat → BuiltRequest → NetOutcome) :
    Except CallErr AIResponse × Nat × List Nat :=
  if isMobile = true ∧ s.aiProvider = AIProvider.ollama then
    (Except.error (CallErr.classified mobileOllamaError), 0, [])
  else
    executeWithRetry cfg (fun i => generateAttempt s s prompt systemPrompt (net i))

/-- `AIService.generateStream`: the mobile guard (local server rejected,
otherwise fall back to one non-streaming call delivered as a single
fragment plus completion), or on desktop one `fetch` whose body is read as
`reads` and processed by the read loop.  Returns the delivered result,
the network-request count and the callback event trace. -/
def generateStreamRun (cfg : RetryConfig) (isMobile : Bool) (s : EvergreenAISettings)
    (prompt systemPrompt : String) (net : Nat → BuiltRequest → NetOutcome)
    (jp : String → Option Json) (reads : List String) :
    Except CallErr Unit × Nat × List StreamEvent :=
  if isMobile = true then
    if s.aiProvider = AIProvider.ollama then
      (Except.error (CallErr.classified mobileOllamaError), 0, [])
    else
      match generateRun cfg true s prompt systemPrompt net with
      | (Except.ok r, n, _) =>
        (Except.ok (), n, [StreamEvent.fragment r.content, StreamEvent.complete])
      | (Except.error e, n, _) => (Except.error e, n, [])
  else
    match net 0 (buildRequest s prompt systemPrompt true) with
    | .status code json =>
      if 400 ≤ code then
        (Except.error (CallErr.classified (parseErrorResponse code json)), 1, [])
      else
        (Except.ok (), 1, processReads (parseStreamChunk jp s.aiProvider) reads "")
    | .netErr _ => (Except.error (CallErr.classified networkError), 1, [])
    | .thrown m =>
      (Except.error (CallErr.classified
        { message := m, code := AIErrorCode.UNKNOWN, retryable := false, retryAfter := none }),
       1, [])

/-- Claim C1: a 429 whose provider message embeds an explicit wait time of
7 seconds.  The extraction scan `findTryAgainIn` would find 7 in the
provider's message, but the classifier reassigns `message` to a fixed
string before scanning, so the classified error carries the 60-second
default instead of the embedded wait time — the classifier evaluated at
the failing input. -/
theorem rateLimit429_retryAfter_always_60 :
    findTryAgainIn "Rate limit reached. Please try again in 7 seconds." = some 7 ∧
    parseErrorResponse 429 (Json.obj [("error", Json.obj [("message",
        Json.str "Rate limit reached. Please try again in 7 seconds.")])]) =
      { message := "Rate limit reached - waiting and retrying..."
        code := AIErrorCode.RATE_LIMIT, retryable := true, retryAfter := some 60 } := by
  constructor
  · decide
  · decide

/-- Anthropic-provider settings for concrete runs. -/
def anthropicSettings : EvergreenAISettings :=
  { aiProvider := AIProvider.anthropic, apiKey := "k", apiEndpoint := ""
    model := "claude-3", temperature := 0, maxTokens := 256 }

/-- The same settings after an `updateSettings` that switches the provider
to OpenAI. -/
def swappedToOpenAI : EvergreenAISettings :=
  { anthropicSettings with aiProvider := AIProvider.openai, model := "gpt-4o" }

/-- The same settings after an `updateSettings` that changes only the
credential, keeping the provider. -/
def anthropicSettingsOtherKey : EvergreenAISettings :=
  { anthropicSettings with apiKey := "k2" }

/-- A well-formed Anthropic messages response body. -/
def anthropicResponseJson : Json :=
  Json.obj [("content", Json.arr [Json.obj [("type", Json.str "text"),
    ("text", Json.str "hi")]]), ("model", Json.str "claude-3")]

/-- A transport oracle that resolves every request with HTTP 200 and the
Anthropic-shaped body. -/
def okNet : BuiltRequest → NetOutcome :=
  fun _ => NetOutcome.status 200 anthropicResponseJson

/-- Claim C2 (counterexample): an in-flight call that built an Anthropic
request, whose configuration is swapped to OpenAI before the response
arrives, parses the response under the NEW provider and returns a
different result than the undisturbed call — the call does not use a
snapshot captured at start. -/
theorem settingsSwap_affects_inflight_parse :
    generateAttempt anthropicSettings swappedToOpenAI "p" "sys" okNet ≠
      generateAttempt anthropicSettings anthropicSettings "p" "sys" okNet := by
  decide

/-- `parseResponse` reads the settings only through the provider
identifier. -/
theorem parseResponse_provider_only (s s' : EvergreenAISettings)
    (h : s.aiProvider = s'.aiProvider) (j : Json) :
    parseResponse s j = parseResponse s' j := by
  unfold parseResponse
  rw [h]

/-- Claim C2 (amended): a configuration swap during an in-flight
non-streaming call does affect the call — request building uses the
configuration current when the attempt runs, but response parsing re-reads
the configuration at parse time.  The in-flight call is unaffected exactly
when the swapped-in configuration keeps the same provider identifier,
because the response parser reads nothing else from the configuration. -/
theorem inflight_swap_same_provider_harmless (sReq sSwap : EvergreenAISettings)
    (prompt sys : String) (net : BuiltRequest → NetOutcome)
    (h : sSwap.aiProvider = sReq.aiProvider) :
    generateAttempt sReq sSwap prompt sys net =
      generateAttempt sReq sReq prompt sys net := by
  unfold generateAttempt
  cases net (buildRequest sReq prompt sys false) with
  | status code json =>
    by_cases hc : 400 ≤ code
    · simp only [hc, if_true]
    · simp only [hc, if_false, parseResponse_provider_only sSwap sReq h json]
  | netErr m => rfl
  | thrown m => rfl

/-- Claim C2 (witness): a mid-call swap that changes only the credential
leaves the in-flight call's outcome unchanged. -/
theorem inflight_swap_same_provider_harmless_witness :
    generateAttempt anthropicSettings anthropicSettingsOtherKey "p" "sys" okNet =
      generateAttempt anthropicSettings anthropicSettings "p" "sys" okNet :=
  inflight_swap_same_provider_harmless anthropicSettings anthropicSettingsOtherKey
    "p" "sys" okNet rfl

/-- Claim C3 (counterexample): status 501 is ≥ 500 but is classified with
no suggested-retry-after at all, not the claimed 5 seconds. -/
theorem status501_no_retry_after :
    (parseErrorResponse 501 (Json.obj [])).retryAfter ≠ some 5 ∧
    parseErrorResponse 501 (Json.obj []) =
      { message := "API request failed", code := AIErrorCode.SERVER_ERROR,
        retryable := true, retryAfter := none } := by
  constructor
  · decide
  · decide

/-- Claim C3 (amended): every status ≥ 500 is classified as an upstream
server error and retryable; the 5-second suggested-retry-after is attached
exactly for the four explicitly-listed statuses 500, 502, 503 and 504,
and absent for every other status ≥ 500. -/
theorem serverError_5xx_classification (status : Nat) (body : Json) (h : 500 ≤ status) :
    (parseErrorResponse status body).code = AIErrorCode.SERVER_ERROR ∧
    (parseErrorResponse status body).retryable = true ∧
    ((status = 500 ∨ status = 502 ∨ status = 503 ∨ status = 504) →
      (parseErrorResponse status body).retryAfter = some 5) ∧
    (¬(status = 500 ∨ status = 502 ∨ status = 503 ∨ status = 504) →
      (parseErrorResponse status body).retryAfter = none) := by
  have h400 : status ≠ 400 := by omega
  have h401 : status ≠ 401 := by omega
  have h403 : status ≠ 403 := by omega
  have h404 : status ≠ 404 := by omega
  have h429 : status ≠ 429 := by omega
  unfold parseErrorResponse
  rw [if_neg h400, if_neg h401, if_neg h403, if_neg h404, if_neg h429]
  by_cases h5 : status = 500 ∨ status = 502 ∨ status = 503 ∨ status = 504
  · rw [if_pos h5]
    refine ⟨rfl, rfl, fun _ => rfl, fun hc => absurd h5 hc⟩
  · rw [if_neg h5, if_pos h]
    exact ⟨rfl, rfl, fun hc => absurd hc h5, fun _ => rfl⟩

/-- Claim C3 (witness): the amended theorem applied at statuses 502 and
501 with concrete bodies. -/
theorem serverError_5xx_classification_witness :
    (parseErrorResponse 502 (Json.obj [])).retryAfter = some 5 ∧
    (parseErrorResponse 501 (Json.obj [("message", Json.str "oops")])).retryAfter = none ∧
    (parseErrorResponse 501 (Json.obj [("message", Json.str "oops")])).code =
      AIErrorCode.SERVER_ERROR :=
  ⟨(serverError_5xx_classification 502 (Json.obj []) (by norm_num)).2.2.1 (by norm_num),
   (serverError_5xx_classification 501 (Json.obj [("message", Json.str "oops")])
      (by norm_num)).2.2.2 (by omega),
   (serverError_5xx_classification 501 (Json.obj [("message", Json.str "oops")])
      (by norm_num)).1⟩

/-- A retryable rate-limit classification carrying a zero
suggested-retry-after. -/
def zeroRetryAfterErr : AIServiceError :=
  { message := "rate limited", code := AIErrorCode.RATE_LIMIT,
    retryable := true, retryAfter := some 0 }

/-- An operation failing once with the zero-retry-after classification,
then succeeding. -/
def opZeroThenOk : Nat → Except CallErr Nat :=
  fun i => if i = 0 then Except.error (CallErr.classified zeroRetryAfterErr) else Except.ok 7

/-- Claim C4 (counterexample): a retryable classified failure at attempt 0
carrying a suggested-retry-after of 0 seconds.  The claim's delay would be
`min (0 * 1000) 30000 = 0` ms; the driver's truthiness check skips the
zero override and sleeps the 1000 ms backoff instead. -/
theorem zero_retry_after_not_honored :
    executeWithRetry DEFAULT_RETRY_CONFIG opZeroThenOk = (Except.ok 7, 2, [1000]) ∧
    (executeWithRetry DEFAULT_RETRY_CONFIG opZeroThenOk).2.2 ≠
      [min (0 * 1000) DEFAULT_RETRY_CONFIG.maxDelayMs] := by
  constructor
  · decide
  · decide

/-- Claim C4 (amended): on a retryable classified failure at attempt index
`i` with retries remaining, the driver sleeps `1000 * 2^i` ms, except that
a POSITIVE suggested-retry-after overrides it with that many seconds in
milliseconds (a zero suggested-retry-after is falsy in JS and behaves as
absent); the delay is clamped to 30000 ms. -/
theorem retry_delay_formula {α : Type} (op : Nat → Except CallErr α) (i fuel : Nat)
    (err : AIServiceError) (hop : op i = Except.error (CallErr.classified err))
    (hr : err.retryable = true) :
    (runRetryAux DEFAULT_RETRY_CONFIG op i (fuel + 1)).2.2 =
      (min (match err.retryAfter with
            | some r => if 0 < r then r * 1000 else 1000 * 2 ^ i
            | none => 1000 * 2 ^ i) 30000) ::
        (runRetryAux DEFAULT_RETRY_CONFIG op (i + 1) fuel).2.2 := by
  rw [runRetryAux, hop]
  simp only [hr, if_true]
  congr 1
  unfold computeRetryDelay
  cases err.retryAfter with
  | none => rfl
  | some r =>
    by_cases h0 : r = 0
    · subst h0
      norm_num [DEFAULT_RETRY_CONFIG]
    · simp [h0, Nat.pos_of_ne_zero h0, DEFAULT_RETRY_CONFIG]

/-- A retryable classification with a positive suggested-retry-after of 7
seconds. -/
def sevenRetryAfterErr : AIServiceError :=
  { message := "rate limited", code := AIErrorCode.RATE_LIMIT,
    retryable := true, retryAfter := some 7 }

/-- An operation that always fails with the 7-second classification. -/
def opAlwaysSeven : Nat → Except CallErr Nat :=
  fun _ => Except.error (CallErr.classified sevenRetryAfterErr)

/-- Claim C4 (witness): the amended delay formula applied at attempt 0
with 2 retries remaining and the 7-second classification: the driver
sleeps 7000 ms. -/
theorem retry_delay_formula_witness :
    (runRetryAux DEFAULT_RETRY_CONFIG opAlwaysSeven 0 (2 + 1)).2.2 =
      7000 :: (runRetryAux DEFAULT_RETRY_CONFIG opAlwaysSeven 1 2).2.2 := by
  have h := retry_delay_formula opAlwaysSeven 0 2 sevenRetryAfterErr rfl rfl
  norm_num [sevenRetryAfterErr] at h
  exact h

/-- `runRetryAux` on a run whose every attempt fails with a retryable
classified error: the delivered result is the classification of the LAST
attempt and the operation is invoked `fuel + 1` times. -/
theorem runRetryAux_all_retryable_fail {α : Type} (cfg : RetryConfig)
    (op : Nat → Except CallErr α) (errs : Nat → AIServiceError) :
    ∀ fuel i,
      (∀ k, k ≤ fuel →
        op (i + k) = Except.error (CallErr.classified (errs (i + k))) ∧
        (errs (i + k)).retryable = true) →
      (runRetryAux cfg op i fuel).1 = Except.error (CallErr.classified (errs (i + fuel))) ∧
      (runRetryAux cfg op i fuel).2.1 = fuel + 1 := by
  intro fuel
  induction fuel with
  | zero =>
    intro i h
    obtain ⟨hop, hr⟩ := h 0 (Nat.le_refl 0)
    simp only [Nat.add_zero] at hop hr ⊢
    rw [runRetryAux, hop]
    simp [hr]
  | succ f ih =>
    intro i h
    obtain ⟨hop, hr⟩ := h 0 (Nat.zero_le _)
    simp only [Nat.add_zero] at hop hr
    rw [runRetryAux, hop]
    simp only [hr, if_true]
    have ih' := ih (i + 1) (fun k hk => by
      have hkk := h (k + 1) (Nat.succ_le_succ hk)
      have he : i + (k + 1) = i + 1 + k := by omega
      rw [he] at hkk
      exact hkk)
    have he2 : i + 1 + f = i + (f + 1) := by omega
    rw [he2] at ih'
    exact ⟨ih'.1, by simp [ih'.2]⟩

/-- Claim C5: under the retry driver, a non-retryable classified failure
on the first attempt and a non-classified failure on the first attempt are
both delivered with exactly one invocation and no delay; and when every
attempt up to the retry bound fails with a retryable classified error, the
delivered result is the last attempt's classified error (not a generic
exception) after exactly `maxRetries + 1` invocations. -/
theorem retry_propagation {α : Type} (cfg : RetryConfig) (op : Nat → Except CallErr α)
    (err : AIServiceError) (m : String) (errs : Nat → AIServiceError) :
    (op 0 = Except.error (CallErr.classified err) → err.retryable = false →
      executeWithRetry cfg op = (Except.error (CallErr.classified err), 1, [])) ∧
    (op 0 = Except.error (CallErr.other m) →
      executeWithRetry cfg op = (Except.error (CallErr.other m), 1, [])) ∧
    ((∀ k, k ≤ cfg.maxRetries →
        op k = Except.error (CallErr.classified (errs k)) ∧ (errs k).retryable = true) →
      (executeWithRetry cfg op).1 = Except.error (CallErr.classified (errs cfg.maxRetries)) ∧
      (executeWithRetry cfg op).2.1 = cfg.maxRetries + 1) := by
  refine ⟨?_, ?_, ?_⟩
  · intro hop hr
    unfold executeWithRetry
    rw [runRetryAux, hop]
    simp [hr]
  · intro hop
    unfold executeWithRetry
    rw [runRetryAux, hop]
  · intro h
    have hall := runRetryAux_all_retryable_fail cfg op errs cfg.maxRetries 0
      (fun k hk => by simpa using h k hk)
    simpa using hall

/-- A non-retryable quota classification. -/
def quotaErr : AIServiceError :=
  { message := "quota", code := AIErrorCode.QUOTA_EXCEEDED,
    retryable := false, retryAfter := none }

/-- An operation that always fails non-retryably. -/
def opNonRetryable : Nat → Except CallErr Nat :=
  fun _ => Except.error (CallErr.classified quotaErr)

/-- An operation that always fails with a non-classified error. -/
def opOther : Nat → Except CallErr Nat :=
  fun _ => Except.error (CallErr.other "boom")

/-- Attempt-indexed retryable server-error classifications. -/
def persistErrs : Nat → AIServiceError :=
  fun k => { message := "server " ++ toString k, code := AIErrorCode.SERVER_ERROR,
             retryable := true, retryAfter := some 5 }

/-- An operation failing retryably on every attempt. -/
def opPersist : Nat → Except CallErr Nat :=
  fun k => Except.error (CallErr.classified (persistErrs k))

/-- Claim C5 (witness): the propagation theorem applied to three concrete
operations under the default configuration (3 retries beyond the first
attempt). -/
theorem retry_propagation_witness :
    executeWithRetry DEFAULT_RETRY_CONFIG opNonRetryable =
      (Except.error (CallErr.classified quotaErr), 1, []) ∧
    executeWithRetry DEFAULT_RETRY_CONFIG opOther =
      (Except.error (CallErr.other "boom"), 1, []) ∧
    ((executeWithRetry DEFAULT_RETRY_CONFIG opPersist).1 =
        Except.error (CallErr.classified (persistErrs 3)) ∧
      (executeWithRetry DEFAULT_RETRY_CONFIG opPersist).2.1 = 3 + 1) :=
  ⟨(retry_propagation DEFAULT_RETRY_CONFIG opNonRetryable quotaErr "boom" persistErrs).1 rfl rfl,
   (retry_propagation DEFAULT_RETRY_CONFIG opOther quotaErr "boom" persistErrs).2.1 rfl,
   (retry_propagation DEFAULT_RETRY_CONFIG opPersist quotaErr "boom" persistErrs).2.2
     (fun _ _ => ⟨rfl, rfl⟩)⟩

/-- Claim C6: per-provider request shaping.  Anthropic carries the
credential under `x-api-key` plus the fixed `anthropic-version` header and
puts the system instruction in a top-level `system` field with a single
user message; OpenAI-compatible builders carry a bearer `Authorization`
header and a system+user message array; the local-server builder nests the
sampling parameters in the `options` sub-object; and the custom and
local-server builders send no credential header when no credential is
configured. -/
theorem request_builder_shapes (s : EvergreenAISettings) (prompt sys : String) (st : Bool) :
    ((buildAnthropicRequest s prompt sys st).headers.lookup "x-api-key" = some s.apiKey) ∧
    ((buildAnthropicRequest s prompt sys st).headers.lookup "anthropic-version" =
      some "2023-06-01") ∧
    ((buildAnthropicRequest s prompt sys st).headers.lookup "Authorization" = none) ∧
    ((buildAnthropicRequest s prompt sys st).body.system = some sys) ∧
    ((buildAnthropicRequest s prompt sys st).body.messages =
      [{ role := "user", content := prompt }]) ∧
    ((buildOpenAIRequest s prompt sys st).headers.lookup "Authorization" =
      some ("Bearer " ++ s.apiKey)) ∧
    ((buildOpenAIRequest s prompt sys st).body.messages =
      [{ role := "system", content := sys }, { role := "user", content := prompt }]) ∧
    ((buildOpenAIRequest s prompt sys st).body.system = none) ∧
    (s.apiKey ≠ "" → (buildCustomRequest s prompt sys st).headers.lookup "Authorization" =
      some ("Bearer " ++ s.apiKey)) ∧
    (s.apiKey = "" → (buildCustomRequest s prompt sys st).headers.lookup "Authorization" =
      none) ∧
    ((buildCustomRequest s prompt sys st).body.messages =
      [{ role := "system", content := sys }, { role := "user", content := prompt }]) ∧
    ((buildOllamaRequest s prompt sys st).headers = [("Content-Type", "application/json")]) ∧
    ((buildOllamaRequest s prompt sys st).body.messages =
      [{ role := "system", content := sys }, { role := "user", content := prompt }]) ∧
    ((buildOllamaRequest s prompt sys st).body.options =
      some { temperature := s.temperature, num_predict := s.maxTokens }) ∧
    ((buildOllamaRequest s prompt sys st).body.temperature = none) ∧
    ((buildOllamaRequest s prompt sys st).body.max_tokens = none) := by
  refine ⟨rfl, rfl, rfl, rfl, rfl, rfl, rfl, rfl, ?_, ?_, rfl, rfl, rfl, rfl, rfl, rfl⟩
  · intro h
    simp [buildCustomRequest, h, List.lookup]
  · intro h
    simp [buildCustomRequest, h, List.lookup]

/-- Custom-provider settings with a configured credential. -/
def customSettingsWithKey : EvergreenAISettings :=
  { aiProvider := AIProvider.custom, apiKey := "sk-1"
    apiEndpoint := "https://example.test/v1/chat/completions"
    model := "m", temperature := 0, maxTokens := 128 }

/-- Custom-provider settings with no credential configured. -/
def customSettingsNoKey : EvergreenAISettings :=
  { customSettingsWithKey with apiKey := "" }

/-- Claim C6 (witness): the shaping theorem applied with a configured and
with an absent credential. -/
theorem request_builder_shapes_witness :
    (buildCustomRequest customSettingsWithKey "p" "sys" false).headers.lookup "Authorization" =
      some ("Bearer " ++ customSettingsWithKey.apiKey) ∧
    (buildCustomRequest customSettingsNoKey "p" "sys" false).headers.lookup "Authorization" =
      none := by
  have h1 := request_builder_shapes customSettingsWithKey "p" "sys" false
  have h2 := request_builder_shapes customSettingsNoKey "p" "sys" false
  exact ⟨h1.2.2.2.2.2.2.2.2.1 (by decide), h2.2.2.2.2.2.2.2.2.2.1 rfl⟩

/-- Claim C10: the OpenAI builder attaches the bearer `Authorization`
header unconditionally — with no credential configured it still sends the
degenerate value `Bearer ` — while the custom and local-server builders
omit the credential header in that case. -/
theorem openai_always_bearer (s : EvergreenAISettings) (prompt sys : String) (st : Bool) :
    ((buildOpenAIRequest s prompt sys st).headers.lookup "Authorization" =
      some ("Bearer " ++ s.apiKey)) ∧
    ((buildOllamaRequest s prompt sys st).headers.lookup "Authorization" = none) ∧
    (s.apiKey = "" →
      (buildOpenAIRequest s prompt sys st).headers.lookup "Authorization" = some "Bearer " ∧
      (buildCustomRequest s prompt sys st).headers.lookup "Authorization" = none) := by
  refine ⟨rfl, rfl, fun h => ⟨?_, ?_⟩⟩
  · rw [show (buildOpenAIRequest s prompt sys st).headers.lookup "Authorization" =
        some ("Bearer " ++ s.apiKey) from rfl, h]
    decide
  · simp [buildCustomRequest, h, List.lookup]

/-- Claim C10 (witness): the bearer-header theorem applied to settings
with no configured credential. -/
theorem openai_always_bearer_witness :
    (buildOpenAIRequest customSettingsNoKey "p" "sys" false).headers.lookup "Authorization" =
      some "Bearer " ∧
    (buildCustomRequest customSettingsNoKey "p" "sys" false).headers.lookup "Authorization" =
      none := by
  have h := openai_always_bearer customSettingsNoKey "p" "sys" false
  exact ⟨(h.2.2 rfl).1, (h.2.2 rfl).2⟩

/-- Claim C7: on a restricted (mobile) platform with the local-server
provider selected, both entry points fail immediately with the fixed
non-retryable classified error, perform zero network requests and emit no
callback events. -/
theorem mobile_ollama_guard (cfg : RetryConfig) (s : EvergreenAISettings)
    (prompt sys : String) (net : Nat → BuiltRequest → NetOutcome)
    (jp : String → Option Json) (reads : List String)
    (h : s.aiProvider = AIProvider.ollama) :
    generateRun cfg true s prompt sys net =
      (Except.error (CallErr.classified mobileOllamaError), 0, []) ∧
    generateStreamRun cfg true s prompt sys net jp reads =
      (Except.error (CallErr.classified mobileOllamaError), 0, []) ∧
    mobileOllamaError.retryable = false := by
  refine ⟨?_, ?_, rfl⟩
  · unfold generateRun
    rw [if_pos ⟨rfl, h⟩]
  · unfold generateStreamRun
    rw [if_pos rfl, if_pos h]

/-- Local-server settings for concrete runs. -/
def ollamaSettings : EvergreenAISettings :=
  { aiProvider := AIProvider.ollama, apiKey := "", apiEndpoint := ""
    model := "llama3", temperature := 0, maxTokens := 256 }

/-- Claim C7 (witness): the guard theorem applied to concrete local-server
settings, a concrete transport oracle and an empty read list. -/
theorem mobile_ollama_guard_witness :
    generateRun DEFAULT_RETRY_CONFIG true ollamaSettings "p" "sys" (fun _ => okNet) =
      (Except.error (CallErr.classified mobileOllamaError), 0, []) ∧
    generateStreamRun DEFAULT_RETRY_CONFIG true ollamaSettings "p" "sys" (fun _ => okNet)
        (fun _ => none) [] =
      (Except.error (CallErr.classified mobileOllamaError), 0, []) := by
  have h := mobile_ollama_guard DEFAULT_RETRY_CONFIG ollamaSettings "p" "sys"
    (fun _ => okNet) (fun _ => none) [] rfl
  exact ⟨h.1, h.2.1⟩

/-- `countComplete` distributes over append. -/
theorem countComplete_append (a b : List StreamEvent) :
    countComplete (a ++ b) = countComplete a + countComplete b := by
  induction a with
  | nil => simp [countComplete]
  | cons x xs ih =>
    cases x with
    | fragment t => simp [countComplete, ih]
    | complete =>
      simp [countComplete, ih]
      omega

/-- `getLast?` of an append whose right part has a known last element. -/
theorem getLast?_append_some {α : Type} (a : List α) {b : List α} {x : α}
    (h : b.getLast? = some x) : (a ++ b).getLast? = some x := by
  have hb : b ≠ [] := by
    intro hnil
    rw [hnil] at h
    simp at h
  rw [List.getLast?_append_of_ne_nil a hb, h]

/-- A line loop that stopped emitted exactly one completion event, as its
last event. -/
theorem processLines_stopped (pc : String → Option AIStreamChunk) (ls : List String)
    (h : (processLines pc ls).2 = true) :
    countComplete (processLines pc ls).1 = 1 ∧
    (processLines pc ls).1.getLast? = some StreamEvent.complete := by
  induction ls with
  | nil => simp [processLines] at h
  | cons l ls ih =>
    cases hpc : pc l with
    | none =>
      simp only [processLines, hpc] at h ⊢
      exact ih h
    | some c =>
      by_cases hd : c.done = true
      · simp [processLines, hpc, hd, countComplete]
      · simp only [processLines, hpc, Bool.not_eq_true] at h ⊢
        rw [if_neg hd] at h ⊢
        simp only at h
        have ihr := ih h
        constructor
        · simp only [countComplete_append, ihr.1]
          split <;> simp [countComplete]
        · exact getLast?_append_some _ ihr.2

/-- A line loop that did not stop emitted no completion event. -/
theorem processLines_not_stopped (pc : String → Option AIStreamChunk) (ls : List String)
    (h : (processLines pc ls).2 = false) :
    countComplete (processLines pc ls).1 = 0 := by
  induction ls with
  | nil => simp [processLines, countComplete]
  | cons l ls ih =>
    cases hpc : pc l with
    | none =>
      simp only [processLines, hpc] at h ⊢
      exact ih h
    | some c =>
      by_cases hd : c.done = true
      · simp [processLines, hpc, hd] at h
      · simp only [processLines, hpc] at h ⊢
        rw [if_neg hd] at h ⊢
        simp only at h
        simp only [countComplete_append, ih h]
        split <;> simp [countComplete]

/-- The flush of a trailing partial line never emits a completion event. -/
theorem processFlush_count (pc : String → Option AIStreamChunk) (buffer : String) :
    countComplete (processFlush pc buffer) = 0 := by
  unfold processFlush
  split
  · split
    · split <;> simp [countComplete]
    · simp [countComplete]
  · simp [countComplete]

/-- The read loop emits exactly one completion event per run, and it is
the final event of the trace. -/
theorem processReads_spec (pc : String → Option AIStreamChunk) :
    ∀ (reads : List String) (buffer : String),
      countComplete (processReads pc reads buffer) = 1 ∧
      (processReads pc reads buffer).getLast? = some StreamEvent.complete := by
  intro reads
  induction reads with
  | nil =>
    intro buffer
    constructor
    · simp [processReads, countComplete_append, processFlush_count, countComplete]
    · simp [processReads, List.getLast?_concat]
  | cons r rs ih =>
    intro buffer
    by_cases hstop : (processLines pc ((jsSplitNl (buffer ++ r)).dropLast)).2 = true
    · have hl := processLines_stopped pc ((jsSplitNl (buffer ++ r)).dropLast) hstop
      simp only [processReads, hstop, if_true]
      exact hl
    · have hf : (processLines pc ((jsSplitNl (buffer ++ r)).dropLast)).2 = false := by
        simpa using hstop
      have hl := processLines_not_stopped pc ((jsSplitNl (buffer ++ r)).dropLast) hf
      have ihr := ih (((jsSplitNl (buffer ++ r)).getLast?).getD "")
      simp only [processReads, hf, Bool.false_eq_true, if_false]
      constructor
      · simp [countComplete_append, hl, ihr.1]
      · exact getLast?_append_some _ ihr.2

/-- Claim C8: every streaming call that delivers success invokes the
completion callback exactly once, as the final callback event — so no
fragment callback happens after completion, and a terminal line stops the
processing of all later buffered lines of the same read. -/
theorem streaming_single_completion (cfg : RetryConfig) (isMobile : Bool)
    (s : EvergreenAISettings) (prompt sys : String)
    (net : Nat → BuiltRequest → NetOutcome) (jp : String → Option Json)
    (reads : List String)
    (h : (generateStreamRun cfg isMobile s prompt sys net jp reads).1 = Except.ok ()) :
    countComplete (generateStreamRun cfg isMobile s prompt sys net jp reads).2.2 = 1 ∧
    (generateStreamRun cfg isMobile s prompt sys net jp reads).2.2.getLast? =
      some StreamEvent.complete := by
  unfold generateStreamRun at h ⊢
  by_cases hm : isMobile = true
  · rw [if_pos hm] at h ⊢
    by_cases ho : s.aiProvider = AIProvider.ollama
    · rw [if_pos ho] at h
      exact absurd h (by simp)
    · rw [if_neg ho] at h ⊢
      revert h
      split
      · intro _
        exact ⟨by simp [countComplete], rfl⟩
      · intro h
        simp at h
  · rw [if_neg hm] at h ⊢
    revert h
    split
    · intro h
      split at h
      · simp at h
      · rename_i hc
        rw [if_neg hc]
        exact processReads_spec (parseStreamChunk jp s.aiProvider) reads ""
    · intro h
      simp at h
    · intro h
      simp at h

/-- OpenAI-provider settings for concrete runs. -/
def openaiSettings : EvergreenAISettings :=
  { aiProvider := AIProvider.openai, apiKey := "sk", apiEndpoint := ""
    model := "gpt-4o-mini", temperature := 0, maxTokens := 512 }

/-- A transport oracle resolving every streaming request with HTTP 200
and an empty JSON body. -/
def c8Net : Nat → BuiltRequest → NetOutcome :=
  fun _ _ => NetOutcome.status 200 (Json.obj [])

/-- Claim C8 (witness): a successful desktop streaming call whose single
read holds the OpenAI sentinel line. -/
theorem streaming_single_completion_witness :
    countComplete (generateStreamRun DEFAULT_RETRY_CONFIG false openaiSettings "p" "sys"
      c8Net (fun _ => none) ["data: [DONE]\n"]).2.2 = 1 ∧
    (generateStreamRun DEFAULT_RETRY_CONFIG false openaiSettings "p" "sys"
      c8Net (fun _ => none) ["data: [DONE]\n"]).2.2.getLast? = some StreamEvent.complete :=
  streaming_single_completion DEFAULT_RETRY_CONFIG false openaiSettings "p" "sys"
    c8Net (fun _ => none) ["data: [DONE]\n"] (by decide)

/-- A line that is valid JSON of a shape unrelated to any provider
envelope. -/
def unrelatedJsonLine : String := "\x7b\"foo\":1\x7d"

/-- `JSON.parse` restricted to the unrelated line (its genuine decoding),
failing on everything else. -/
def unrelatedJsonParse : String → Option Json :=
  fun s => if s = unrelatedJsonLine then some (Json.obj [("foo", Json.num 1)]) else none

/-- Claim C9 (counterexample): under the local-server provider, a line
that is valid JSON of an unrelated shape does NOT yield null — it yields
an empty non-terminal fragment. -/
theorem ollama_unrelated_json_not_null :
    parseStreamChunk unrelatedJsonParse AIProvider.ollama unrelatedJsonLine =
      some { content := "", done := false } ∧
    parseStreamChunk unrelatedJsonParse AIProvider.ollama unrelatedJsonLine ≠ none := by
  constructor
  · decide
  · decide

/-- Claim C9 (amended): the streaming chunk parser is total and never
throws.  For every provider, a line that is not a data line yields null
and a data line whose payload fails JSON parsing yields null; a payload
that is valid JSON but lacks the provider's expected fields yields null
for the Anthropic and OpenAI-compatible providers, while the local-server
provider yields an empty non-terminal fragment (which the read loop then
discards) instead of null. -/
theorem stream_chunk_parser_skips (jp : String → Option Json) (prov : AIProvider)
    (line : String) (fields : List (String × Json)) :
    (strStarts (jsTrim line) "data: " = false → strStarts (jsTrim line) "\x7b" = false →
      jsTrim line ≠ "data: [DONE]" → parseStreamChunk jp prov line = none) ∧
    (strStarts (jsTrim line) "data: " = true → jsTrim line ≠ "data: [DONE]" →
      jp (strDrop (jsTrim line) 6) = none → parseStreamChunk jp prov line = none) ∧
    (strStarts (jsTrim line) "data: " = false → strStarts (jsTrim line) "\x7b" = true →
      jp (jsTrim line) = none → parseStreamChunk jp prov line = none) ∧
    (fields.lookup "type" = none →
      parseStreamChunkData AIProvider.anthropic (Json.obj fields) = none) ∧
    (fields.lookup "choices" = none →
      parseStreamChunkData AIProvider.openai (Json.obj fields) = none) ∧
    (fields.lookup "choices" = none →
      parseStreamChunkData AIProvider.custom (Json.obj fields) = none) ∧
    (fields.lookup "message" = none → fields.lookup "done" = none →
      parseStreamChunkData AIProvider.ollama (Json.obj fields) =
        some { content := "", done := false }) := by
  refine ⟨?_, ?_, ?_, ?_, ?_, ?_, ?_⟩
  · intro h1 h2 h3
    by_cases he : jsTrim line = ""
    · simp [parseStreamChunk, he]
    · simp [parseStreamChunk, he, h1, h2, h3]
  · intro h1 h3 hjp
    have he : jsTrim line ≠ "" := by
      intro hnil
      rw [hnil] at h1
      exact absurd h1 (by decide)
    simp [parseStreamChunk, he, h1, h3, hjp]
  · intro h1 h2 hjp
    have he : jsTrim line ≠ "" := by
      intro hnil
      rw [hnil] at h2
      exact absurd h2 (by decide)
    have h3 : jsTrim line ≠ "data: [DONE]" := by
      intro hs
      rw [hs] at h1
      exact absurd h1 (by decide)
    simp [parseStreamChunk, he, h1, h2, h3, hjp]
  · intro ht
    simp [parseStreamChunkData, Json.getField, ht]
  · intro hch
    simp [parseStreamChunkData, Json.getField, hch]
  · intro hch
    simp [parseStreamChunkData, Json.getField, hch]
  · intro hmsg hdone
    simp [parseStreamChunkData, Json.getField, hmsg, hdone, strOrEmpty]

/-- Claim C9 (witness): the amended theorem applied to a non-data line, a
data line with an unparsable payload, a brace line with an unparsable
payload, and the unrelated-shape object under all four providers. -/
theorem stream_chunk_parser_skips_witness :
    parseStreamChunk (fun _ => none) AIProvider.openai "event: ping" = none ∧
    parseStreamChunk (fun _ => none) AIProvider.anthropic "data: notjson" = none ∧
    parseStreamChunk (fun _ => none) AIProvider.custom "\x7bbad" = none ∧
    parseStreamChunkData AIProvider.anthropic (Json.obj [("foo", Json.num 1)]) = none ∧
    parseStreamChunkData AIProvider.openai (Json.obj [("foo", Json.num 1)]) = none ∧
    parseStreamChunkData AIProvider.custom (Json.obj [("foo", Json.num 1)]) = none ∧
    parseStreamChunkData AIProvider.ollama (Json.obj [("foo", Json.num 1)]) =
      some { content := "", done := false } := by
  have h1 := stream_chunk_parser_skips (fun _ => none) AIProvider.openai
    "event: ping" [("foo", Json.num 1)]
  have h2 := stream_chunk_parser_skips (fun _ => none) AIProvider.anthropic
    "data: notjson" [("foo", Json.num 1)]
  have h3 := stream_chunk_parser_skips (fun _ => none) AIProvider.custom
    "\x7bbad" [("foo", Json.num 1)]
  exact ⟨h1.1 (by decide) (by decide) (by decide),
         h2.2.1 (by decide) (by decide) rfl,
         h3.2.2.1 (by decide) (by decide) rfl,
         h1.2.2.2.1 rfl, h1.2.2.2.2.1 rfl, h1.2.2.2.2.2.1 rfl,
         h1.2.2.2.2.2.2 rfl rfl⟩

end EvergreenAI
